import Mathlib

/-!
Shallow embedding of the OD / flow correlation engine of this repository
(src/02basedata_process/od_analysis/detailed_correlation_analysis.py and
src/02basedata_process/od_analysis/od_data_analysis.py).

Numeric columns of the pandas DataFrames are modelled exactly: integer
counts as Nat, float columns as rationals, and float results of divisions
as the type PVal below, which also carries the IEEE-754 special values
(positive/negative infinity and NaN) that pandas produces on division by
zero.  String codes are modelled as String, and the python str of a raw
vehicle-type code as List Char (so that the python startswith semantics is
first-character comparison).  Each definition is annotated with the source
line it embeds.
-/

/-- Result of a pandas float computation: a finite rational or one of the
IEEE special values (inf, -inf, NaN) that numpy produces on division by
zero (the scripts suppress the warnings, line 24 of
detailed_correlation_analysis.py, so these values flow on silently). -/
inductive PVal where
  | fin (q : ℚ)
  | pinf
  | ninf
  | nan
deriving DecidableEq, Repr

/-- Pandas / numpy float division a / b: finite quotient when b is not 0,
otherwise +inf, -inf or NaN according to the sign of a. -/
def pdiv (a b : ℚ) : PVal :=
  if b ≠ 0 then .fin (a / b)
  else if 0 < a then .pinf
  else if a < 0 then .ninf
  else .nan

/-- IEEE addition on PVal (used for pandas sums and means). -/
def padd : PVal → PVal → PVal
  | .nan, _ => .nan
  | _, .nan => .nan
  | .fin a, .fin b => .fin (a + b)
  | .fin _, .pinf => .pinf
  | .fin _, .ninf => .ninf
  | .pinf, .fin _ => .pinf
  | .ninf, .fin _ => .ninf
  | .pinf, .pinf => .pinf
  | .ninf, .ninf => .ninf
  | .pinf, .ninf => .nan
  | .ninf, .pinf => .nan

/-- IEEE multiplication on PVal (used for the ±10 percent bounds around a
median). -/
def pmul : PVal → PVal → PVal
  | .nan, _ => .nan
  | _, .nan => .nan
  | .fin a, .fin b => .fin (a * b)
  | .fin a, .pinf => if 0 < a then .pinf else if a < 0 then .ninf else .nan
  | .fin a, .ninf => if 0 < a then .ninf else if a < 0 then .pinf else .nan
  | .pinf, .fin b => if 0 < b then .pinf else if b < 0 then .ninf else .nan
  | .ninf, .fin b => if 0 < b then .ninf else if b < 0 then .pinf else .nan
  | .pinf, .pinf => .pinf
  | .ninf, .ninf => .pinf
  | .pinf, .ninf => .ninf
  | .ninf, .pinf => .ninf

/-- IEEE comparison a ≤ b on PVal; any comparison against NaN is false,
exactly as in python. -/
def pleb : PVal → PVal → Bool
  | .nan, _ => false
  | _, .nan => false
  | .fin a, .fin b => a ≤ b
  | .fin _, .pinf => true
  | .fin _, .ninf => false
  | .pinf, .fin _ => false
  | .ninf, .fin _ => true
  | .pinf, .pinf => true
  | .ninf, .ninf => true
  | .pinf, .ninf => false
  | .ninf, .pinf => true

/-- NaN test on a pandas float value (the isna check behind skipna). -/
def isNaN : PVal → Bool
  | .nan => true
  | _ => false

/-- Sum of a list of PVal, as numpy would fold IEEE addition over it
starting from 0. -/
def psum (l : List PVal) : PVal :=
  l.foldl padd (.fin 0)

/-- Pandas Series.mean with the default skipna=True: NaN entries are
dropped, the rest are IEEE-summed and divided by their count; an empty
series yields NaN.  Infinities are NOT skipped and propagate into the
mean, exactly as in pandas. -/
def pmean (l : List PVal) : PVal :=
  let v := l.filter (fun x => ! isNaN x)
  if v.length = 0 then .nan
  else
    match psum v with
    | .fin q => .fin (q / v.length)
    | s => s

/-- Quality flags attached to matched toll-square rows
(detailed_correlation_analysis.py line 376). -/
inductive QualityFlag where
  | normal
  | abnormal
deriving DecidableEq, Repr

/-- Embeds detailed_correlation_analysis.py lines 372-378: for the
toll-square facets the row's od_flow_ratio is od_count / flow_total, and
data_quality_flag is the pandas apply of
(lambda x: normal if 0.8 <= x <= 1.2 else abnormal) to that ratio.  A
zero flow_total makes the ratio an IEEE special value, and any comparison
against it is false, so the flag is abnormal. -/
def data_quality_flag (od_count flow_total : ℚ) : QualityFlag :=
  match pdiv od_count flow_total with
  | .fin x => if 0.8 ≤ x ∧ x ≤ 1.2 then .normal else .abnormal
  | _ => .abnormal

/-- Derived vehicle classes (detailed_correlation_analysis.py lines
239-247, od_data_analysis.py lines 307-315). -/
inductive VehicleClass where
  | passenger
  | truck
  | trailer
  | other
deriving DecidableEq, Repr

/-- Python str.startswith on a python string modelled as its list of
characters. -/
def pyStartsWith (s p : List Char) : Bool :=
  p.isPrefixOf s

/-- Embeds classify_vehicle_type (detailed_correlation_analysis.py lines
239-247; the same nested function is repeated verbatim at
od_data_analysis.py lines 307-315, 509-517 and 624-632): chained
startswith tests on the raw vehicle-type string with a final fallback to
other. -/
def classify_vehicle_type (vehicle_type : List Char) : VehicleClass :=
  if pyStartsWith vehicle_type ['k'] then .passenger
  else if pyStartsWith vehicle_type ['h'] then .truck
  else if pyStartsWith vehicle_type ['t'] then .trailer
  else .other

/-- Embeds the pandas apply of classify_vehicle_type over the vehicle_type
column (detailed_correlation_analysis.py line 249): a present string value
is classified; a missing value (SQL NULL, i.e. python None / NaN) has no
startswith attribute, so the apply raises AttributeError instead of
producing a class. -/
def applyClassifyVehicleType : Option (List Char) → Except String VehicleClass
  | some s => .ok (classify_vehicle_type s)
  | none => .error "AttributeError"

/-- Specification-worded classifier, for comparison with the source one:
a total function of only the first character of the code
(k -> passenger, h -> truck, t -> trailer, anything else -> other). -/
def classifyByFirstChar (vehicle_type : List Char) : VehicleClass :=
  match vehicle_type with
  | [] => .other
  | c :: _ =>
    if c = 'k' then .passenger
    else if c = 'h' then .truck
    else if c = 't' then .trailer
    else .other

/-- Point types assigned by _process_od_data
(detailed_correlation_analysis.py lines 220-225). -/
inductive PointType where
  | toll_square
  | gantry
deriving DecidableEq, Repr

/-- Trip (OD) record after loading, with the nullable square codes and the
derived temporal bins.  Dates are modelled as day numbers, hours as
naturals; start_date / start_hour and end_date / end_hour embed the
dt.date / dt.hour binning of _process_od_data
(detailed_correlation_analysis.py lines 228-236). -/
structure OdRecord where
  pass_id : String
  vehicle_type : List Char
  start_square_code : Option String
  start_station_code : String
  end_square_code : Option String
  end_station_code : String
  start_date : ℕ
  start_hour : ℕ
  end_date : ℕ
  end_hour : ℕ
deriving DecidableEq, Repr

/-- Embeds start_point_code = start_square_code.fillna(start_station_code)
(detailed_correlation_analysis.py line 216, od_data_analysis.py line 274). -/
def startPointCode (r : OdRecord) : String :=
  r.start_square_code.getD r.start_station_code

/-- Embeds end_point_code = end_square_code.fillna(end_station_code)
(detailed_correlation_analysis.py line 217, od_data_analysis.py line 275). -/
def endPointCode (r : OdRecord) : String :=
  r.end_square_code.getD r.end_station_code

/-- Embeds start_point_type (toll_square if the square code is present,
else gantry; detailed_correlation_analysis.py lines 220-222). -/
def startPointType (r : OdRecord) : PointType :=
  match r.start_square_code with
  | some _ => .toll_square
  | none => .gantry

/-- Embeds end_point_type (detailed_correlation_analysis.py lines
223-225). -/
def endPointType (r : OdRecord) : PointType :=
  match r.end_square_code with
  | some _ => .toll_square
  | none => .gantry

/-- Embeds is_pass_through = (start_point_code == end_point_code)
(od_data_analysis.py lines 294-296). -/
def is_pass_through (r : OdRecord) : Bool :=
  startPointCode r == endPointCode r

/-- Embeds valid_od_data = od_data[~od_data.is_pass_through]
(od_data_analysis.py line 299): only the basic analysis builds this
filtered frame. -/
def valid_od_data (l : List OdRecord) : List OdRecord :=
  l.filter (fun r => ! is_pass_through r)

/-- Grouping key of the detailed gantry-origin aggregation:
(start_station_code, start_date, start_hour)
(detailed_correlation_analysis.py line 274). -/
abbrev GKey := String × ℕ × ℕ

/-- Key of a trip record in the detailed gantry-origin aggregation. -/
def startKey (r : OdRecord) : GKey :=
  (r.start_station_code, r.start_date, r.start_hour)

/-- Embeds the facet filter od_data[od_data.start_point_type == gantry]
(detailed_correlation_analysis.py line 258).  Note that no pass-through
filter is applied anywhere in detailed_correlation_analysis.py. -/
def gantryOriginTrips (l : List OdRecord) : List OdRecord :=
  l.filter (fun r => startPointType r == PointType.gantry)

/-- Embeds the groupby([start_station_code, start_date, start_hour]) count
of pass_id (detailed_correlation_analysis.py lines 274-278), evaluated at
one aggregation key: the number of gantry-origin trip records carrying
that key. -/
def gantryOdCount (l : List OdRecord) (k : GKey) : ℕ :=
  ((gantryOriginTrips l).filter (fun r => startKey r == k)).length

/-- A row of the trip-side aggregate (od_aggregated,
detailed_correlation_analysis.py lines 274-278): key plus trip count.  The
vehicle-class histogram column is not needed by the join claims. -/
structure OdAgg where
  key : GKey
  od_count : ℕ
deriving DecidableEq, Repr

/-- A row of the flow-side aggregate (flow_aggregated,
detailed_correlation_analysis.py lines 281-287): key plus the summed
totals. -/
structure FlowAgg where
  key : GKey
  flow_total : ℚ
  flow_k : ℚ
  flow_h : ℚ
  flow_t : ℚ
deriving DecidableEq, Repr

/-- Lookup of a key in the flow aggregate.  The flow aggregate is the
output of a pandas groupby, so its keys are unique and a left merge
attaches at most one flow row per trip row. -/
def lookupFlow (flows : List FlowAgg) (k : GKey) : Option FlowAgg :=
  flows.find? (fun f => f.key == k)

/-- A row of the joined correlation frame: the trip-side columns always
present, the flow-side columns nullable (NaN after an unmatched left
join). -/
structure CorrRow where
  key : GKey
  od_count : ℕ
  flow : Option FlowAgg
deriving DecidableEq, Repr

/-- Embeds the left merge of od_aggregated with flow_aggregated on the
(code, date, hour) key (detailed_correlation_analysis.py lines 306-312,
1246-1251, 1515-1519): one output row per trip-aggregate row, carrying
the matching flow row when the key exists on the flow side and null
otherwise. -/
def leftJoin (ods : List OdAgg) (flows : List FlowAgg) : List CorrRow :=
  ods.map (fun o => ⟨o.key, o.od_count, lookupFlow flows o.key⟩)

/-- Embeds valid_data = correlation_data[correlation_data.flow_total.notna()]
(detailed_correlation_analysis.py line 363): the only filter applied
before the ratio statistics is non-nullness; a present zero flow_total
stays in. -/
def validRows (rows : List CorrRow) : List CorrRow :=
  rows.filter (fun r => r.flow.isSome)

/-- Embeds missing_flow_count = correlation_data.flow_total.isnull().sum()
(detailed_correlation_analysis.py line 319). -/
def missingFlowCount (rows : List CorrRow) : ℕ :=
  (rows.filter (fun r => r.flow.isNone)).length

/-- Embeds matched_records = len(correlation_data) - missing_flow_count
(detailed_correlation_analysis.py line 320). -/
def matchedRecords (rows : List CorrRow) : ℕ :=
  rows.length - missingFlowCount rows

/-- Flow total of a joined row, defaulting to 0 only for the purpose of
feeding pdiv below; rows with a null flow never reach the ratio series
because validRows removed them. -/
def rowFlowTotal (r : CorrRow) : ℚ :=
  match r.flow with
  | some f => f.flow_total
  | none => 0

/-- Embeds valid_data.od_flow_ratio = od_count / flow_total
(detailed_correlation_analysis.py lines 373, 381): the series of pandas
quotients over the valid (matched) rows. -/
def odFlowRatioSeries (rows : List CorrRow) : List PVal :=
  (validRows rows).map (fun r => pdiv r.od_count (rowFlowTotal r))

/-- Embeds valid_data.flow_od_ratio = flow_total / od_count
(detailed_correlation_analysis.py lines 372, 382). -/
def flowOdRatioSeries (rows : List CorrRow) : List PVal :=
  (validRows rows).map (fun r => pdiv (rowFlowTotal r) r.od_count)

/-- Embeds the mean entry of od_flow_ratio_stats
(detailed_correlation_analysis.py line 435): pandas mean of the
od_flow_ratio series over valid_data. -/
def odFlowRatioMean (rows : List CorrRow) : PVal :=
  pmean (odFlowRatioSeries rows)

/-- Embeds the max entry of od_flow_ratio_stats
(detailed_correlation_analysis.py line 439): pandas max (NaN-skipping
fold of IEEE max). -/
def odFlowRatioMax (rows : List CorrRow) : PVal :=
  match (odFlowRatioSeries rows).filter (fun x => ! isNaN x) with
  | [] => .nan
  | x :: xs => xs.foldl (fun a b => if pleb a b then b else a) x

/-- Statistics of the same ratio series restricted, as the specification
words it, to rows whose flow_total is present AND strictly positive; used
to compare against what the source actually computes. -/
def odFlowRatioMeanSpecPositive (rows : List CorrRow) : PVal :=
  pmean ((validRows rows).filter (fun r => 0 < rowFlowTotal r)
    |>.map (fun r => pdiv r.od_count (rowFlowTotal r)))

/-- Key of the basic (od_data_analysis.py) hourly correlation: the basic
analysis joins on (code, hour) only, with no date component
(od_data_analysis.py lines 524, 551). -/
abbrev BKey := String × ℕ

/-- Trip-side hourly aggregate row of the basic analysis
(od_hourly, od_data_analysis.py lines 524-529). -/
structure BOdAgg where
  key : BKey
  od_count : ℕ
deriving DecidableEq, Repr

/-- Flow-side hourly aggregate row of the basic analysis
(flow_hourly, od_data_analysis.py lines 551-557). -/
structure BFlowAgg where
  key : BKey
  flow_total : ℚ
deriving DecidableEq, Repr

/-- Embeds the merge of od_hourly with flow_hourly in the basic gantry
correlation (od_data_analysis.py lines 566-571) and in the basic
toll-square correlation (lines 681-686): both use how=inner, so a
trip-aggregate key with no flow row produces no output row at all. -/
def innerJoin (ods : List BOdAgg) (flows : List BFlowAgg) : List (BOdAgg × BFlowAgg) :=
  ods.flatMap (fun o => ((flows.filter (fun f => f.key == o.key)).map (fun f => (o, f))))

/-- A row of the per-gantry hourly flow statistic (flow_stats,
detailed_correlation_analysis.py lines 673-684): summed total per
(gantry_code, date, hour). -/
structure FlowStat where
  gantry_code : String
  date : ℕ
  hour : ℕ
  total_flow : ℚ
deriving DecidableEq, Repr

/-- A row of the per-gantry hourly OD statistic (od_stats,
detailed_correlation_analysis.py lines 648-671): trip count per
(gantry_code, date, hour), computed separately for origins (start-time
binning) and destinations (end-time binning). -/
structure OdStat where
  gantry_code : String
  date : ℕ
  hour : ℕ
  od_count : ℕ
deriving DecidableEq, Repr

/-- Lookup of a gantry-hour key in an OD statistic; the statistic is a
groupby output, so keys are unique and a left merge attaches at most one
row. -/
def lookupOd (stats : List OdStat) (g : String) (d h : ℕ) : Option ℕ :=
  (stats.find? (fun s => s.gantry_code == g && s.date == d && s.hour == h)).map
    (fun s => s.od_count)

/-- One row of the transit-flow frame built by _calculate_transit_flow
(detailed_correlation_analysis.py lines 686-716). -/
structure TransitRow where
  gantry_code : String
  date : ℕ
  hour : ℕ
  total_flow : ℚ
  origin_od_count : ℚ
  destination_od_count : ℚ
  od_related_flow : ℚ
  transit_flow : ℚ
  od_ratio : PVal
  transit_ratio : PVal
deriving DecidableEq, Repr

/-- Embeds _calculate_transit_flow (detailed_correlation_analysis.py lines
686-716): starting from flow_stats, left-join the origin and destination
OD statistics (missing counts filled with 0, lines 706-707), set
od_related_flow = origin + destination (line 710),
transit_flow = (total_flow - od_related_flow).clip(lower=0) (lines
711-712), then od_ratio = od_related_flow / total_flow and
transit_ratio = transit_flow / total_flow (lines 715-716) as raw pandas
divisions with no fillna afterwards. -/
def calculate_transit_flow (flowStats : List FlowStat)
    (originStats destStats : List OdStat) : List TransitRow :=
  flowStats.map (fun f =>
    let o : ℚ := ((lookupOd originStats f.gantry_code f.date f.hour).getD 0 : ℕ)
    let d : ℚ := ((lookupOd destStats f.gantry_code f.date f.hour).getD 0 : ℕ)
    let odr : ℚ := o + d
    let tf : ℚ := max 0 (f.total_flow - odr)
    { gantry_code := f.gantry_code
      date := f.date
      hour := f.hour
      total_flow := f.total_flow
      origin_od_count := o
      destination_od_count := d
      od_related_flow := odr
      transit_flow := tf
      od_ratio := pdiv odr f.total_flow
      transit_ratio := pdiv tf f.total_flow })

/-- Function labels of _classify_gantry_function
(detailed_correlation_analysis.py lines 748-754); origin_dominant renders
the source string for an OD-dominated gantry, channel the through-traffic
string, mixed the remaining one. -/
inductive FunctionLabel where
  | origin_dominant
  | channel
  | mixed
deriving DecidableEq, Repr

/-- Embeds classify_function (detailed_correlation_analysis.py lines
748-754), applied per gantry to the groupby means of od_ratio and
transit_ratio: origin_dominant if mean od_ratio > 0.5, else channel if
mean transit_ratio > 0.8, else mixed. -/
def classify_function (od_ratio transit_ratio : ℚ) : FunctionLabel :=
  if od_ratio > 0.5 then .origin_dominant
  else if transit_ratio > 0.8 then .channel
  else .mixed

/-- Pandas od_flow_ratio of one joined row, as used by the median-case
sampler (detailed_correlation_analysis.py line 1529). -/
def rowOdFlowRatio (r : CorrRow) : PVal :=
  pdiv r.od_count (rowFlowTotal r)

/-- Pandas Series.median with the default skipna=True: drop NaN, sort,
take the middle element, or the average of the two middle elements for an
even count; an empty series yields NaN. -/
def pandasMedian (l : List PVal) : PVal :=
  let v := (l.filter (fun x => ! isNaN x)).mergeSort pleb
  let n := v.length
  if n = 0 then .nan
  else if n % 2 = 1 then v.getD (n / 2) .nan
  else pmul (padd (v.getD (n / 2 - 1) .nan) (v.getD (n / 2) .nan)) (.fin (1 / 2))

/-- Linear congruential generator standing in for the fixed-seed numpy
RandomState(42) behind DataFrame.sample.  The exact index sequence of the
Mersenne Twister is a numpy implementation detail external to this
repository; what the analysis relies on, and what this model preserves,
is that the generator is a pure function of the seed. -/
def lcgNext (s : ℕ) : ℕ :=
  (1103515245 * s + 12345) % 4294967296

/-- Deterministic model of DataFrame.sample(n, random_state=seed)
(detailed_correlation_analysis.py line 1544): draw n rows without
replacement, each draw removing the selected index, the index stream
driven purely by the seed. -/
def pandasSample {α : Type} : ℕ → ℕ → List α → List α
  | _, 0, _ => []
  | seed, n + 1, xs =>
    match xs[seed % xs.length]? with
    | none => []
    | some a => a :: pandasSample (lcgNext seed) n (xs.eraseIdx (seed % xs.length))

/-- Embeds the case-selection step of analyze_median_ratio_cases
(detailed_correlation_analysis.py lines 1522-1541): restrict to the
matched rows, compute the median od_flow_ratio, and keep every row whose
ratio lies between median*0.9 and median*1.1. -/
def medianRatioCases (rows : List CorrRow) : List CorrRow :=
  let valid := validRows rows
  let m := pandasMedian (valid.map rowOdFlowRatio)
  let lb := pmul m (.fin (9 / 10))
  let ub := pmul m (.fin (11 / 10))
  valid.filter (fun r => pleb lb (rowOdFlowRatio r) && pleb (rowOdFlowRatio r) ub)

/-- Embeds the sampling step of analyze_median_ratio_cases
(detailed_correlation_analysis.py line 1544):
median_cases.sample(min(10, len(median_cases)), random_state=42). -/
def sampleMedianCases (rows : List CorrRow) : List CorrRow :=
  let cases := medianRatioCases rows
  pandasSample 42 (min 10 cases.length) cases

/-- A raw trip row of the OD source table, with the two event timestamps
modelled as naturals. -/
structure TripRow where
  pass_id : String
  start_time : ℕ
  end_time : ℕ
deriving DecidableEq, Repr

/-- Embeds the SQL window predicate of _build_od_sql
(detailed_correlation_analysis.py lines 108-109):
time_filter >= start AND time_filter < end. -/
def inWindow (s e t : ℕ) : Bool :=
  decide (s ≤ t) && decide (t < e)

/-- Embeds the entry-side extract (od_sql_entry, line 181): the trips
whose start_time lies in the window. -/
def odQueryByStart (table : List TripRow) (s e : ℕ) : List TripRow :=
  table.filter (fun r => inWindow s e r.start_time)

/-- Embeds the exit-side extract (od_sql_exit, line 182): the trips whose
end_time lies in the window. -/
def odQueryByEnd (table : List TripRow) (s e : ℕ) : List TripRow :=
  table.filter (fun r => inWindow s e r.end_time)

/-- Embeds pandas drop_duplicates(subset=[pass_id]) (line 189): keep the
first row of each pass_id, in order. -/
def dedupByPassId : List TripRow → List TripRow
  | [] => []
  | r :: rest => r :: dedupByPassId (rest.filter (fun x => x.pass_id != r.pass_id))
termination_by l => l.length
decreasing_by
  simp only [List.length_cons]
  exact Nat.lt_succ_of_le (List.length_filter_le _ _)

/-- Embeds load_data lines 180-189: concatenate the entry-window and
exit-window extracts and deduplicate on pass_id. -/
def load_od_data (table : List TripRow) (s e : ℕ) : List TripRow :=
  dedupByPassId (odQueryByStart table s e ++ odQueryByEnd table s e)

/-- C1 counterexample: a trip whose origin and destination point codes are
both the gantry code G1 is a pass-through record, yet the detailed
gantry-origin aggregation (detailed_correlation_analysis.py lines
274-278) still counts it: no pass-through filter exists anywhere in
detailed_correlation_analysis.py, so the record enters the trip counts of
the correlation-join facet, refuting exclusion from every aggregation in
every facet. -/
theorem c1_counterexample :
    is_pass_through ⟨"P1", ['k', '1'], none, "G1", none, "G1", 1, 8, 1, 9⟩ = true ∧
    gantryOdCount [⟨"P1", ['k', '1'], none, "G1", none, "G1", 1, 8, 1, 9⟩] ("G1", 1, 8) = 1 := by
  constructor <;> rfl

/-- C1 amended: a pass-through trip (origin point code equal to
destination point code) is excluded from the aggregations of the basic
analysis that are built from valid_od_data (od_data_analysis.py line 299:
vehicle-class distribution, OD-pair statistics, the origin-correlation
facets), but the detailed correlation analysis applies no such filter:
a pass-through trip with a gantry origin is counted by the detailed
gantry-origin aggregation like any other trip. -/
theorem c1_main :
    ∀ (l : List OdRecord) (r : OdRecord), is_pass_through r = true →
      r ∉ valid_od_data l ∧
      (startPointType r = PointType.gantry →
        gantryOdCount [r] (startKey r) = 1) := by
  intro l r h
  constructor
  · intro hmem
    have := (List.mem_filter.mp hmem).2
    simp [h] at this
  · intro hg
    simp [gantryOdCount, gantryOriginTrips, hg, List.filter]

/-- C1 witness: the amended theorem applied to the concrete pass-through
record with gantry origin G1. -/
theorem c1_witness :
    (⟨"P2", ['h', '1'], none, "G1", none, "G1", 2, 7, 2, 7⟩ : OdRecord) ∉
      valid_od_data [⟨"P2", ['h', '1'], none, "G1", none, "G1", 2, 7, 2, 7⟩] ∧
    gantryOdCount [⟨"P2", ['h', '1'], none, "G1", none, "G1", 2, 7, 2, 7⟩]
      (startKey ⟨"P2", ['h', '1'], none, "G1", none, "G1", 2, 7, 2, 7⟩) = 1 := by
  have h := c1_main [⟨"P2", ['h', '1'], none, "G1", none, "G1", 2, 7, 2, 7⟩]
    ⟨"P2", ['h', '1'], none, "G1", none, "G1", 2, 7, 2, 7⟩ (by rfl)
  exact ⟨h.1, h.2 (by rfl)⟩

/-- C2 counterexample: the matched toll-square row with 80 trips and
flow_total 100 has flow_od_ratio 100/80 = 1.25, outside the band
[0.8, 1.2], yet the source flags it normal, because the flag
(detailed_correlation_analysis.py line 376) is computed from
od_flow_ratio = 80/100 = 0.8, not from flow_od_ratio; so quality_flag =
normal is not equivalent to flow_od_ratio lying in [0.8, 1.2]. -/
theorem c2_counterexample :
    ¬ (data_quality_flag 80 100 = QualityFlag.normal ↔
        ((0.8 : ℚ) ≤ 100 / 80 ∧ (100 / 80 : ℚ) ≤ 1.2)) := by
  intro h
  have h1 : data_quality_flag 80 100 = QualityFlag.normal := by
    norm_num [data_quality_flag, pdiv]
  have h2 := h.mp h1
  norm_num at h2

/-- C2 amended: for a matched toll-square row the quality flag is normal
if and only if od_flow_ratio = trip_count / flow_total (not
flow_od_ratio) lies in [0.8, 1.2]; in particular the row with 80 trips
and flow_total 100 (od_flow_ratio 0.8, flow_od_ratio 1.25) is flagged
normal. -/
theorem c2_main :
    (∀ od_count flow_total : ℚ,
      data_quality_flag od_count flow_total = QualityFlag.normal ↔
        (flow_total ≠ 0 ∧ 0.8 ≤ od_count / flow_total ∧ od_count / flow_total ≤ 1.2)) ∧
    data_quality_flag 80 100 = QualityFlag.normal := by
  constructor
  · intro a b
    by_cases hb : b = 0
    · subst hb
      unfold data_quality_flag pdiv
      rw [if_neg (by simp)]
      split_ifs with h1 h2 <;> simp
    · unfold data_quality_flag pdiv
      rw [if_pos hb]
      show (if 0.8 ≤ a / b ∧ a / b ≤ 1.2 then QualityFlag.normal
        else QualityFlag.abnormal) = QualityFlag.normal ↔ _
      split_ifs with h
      · simp [hb, h]
      · simp [hb, h]
  · norm_num [data_quality_flag, pdiv]

/-- C3 counterexample: the basic gantry correlation facet
(od_data_analysis.py lines 566-571) joins with how=inner, so a
trip-aggregate row whose (gantry, hour) key has no flow-aggregate row is
dropped entirely instead of being kept with a null flow_total: the join
of one trip row against an empty flow aggregate is empty. -/
theorem c3_counterexample :
    innerJoin [⟨("G1", 8), 5⟩] [] = [] ∧
    ([⟨("G1", 8), 5⟩] : List BOdAgg).length = 1 := by
  exact ⟨rfl, rfl⟩

/-- C3 amended: in the four facets of the detailed correlation analysis
the reconciliation join is a left join preserving every TripAggregate
row: a key with no flow match yields a row with null flow columns, which
is excluded from the valid (ratio-statistics) subset and counted in the
unmatched portion of coverage accounting, never dropped; the basic
analysis facets, in contrast, use an inner join that drops such keys. -/
theorem c3_main :
    ∀ (ods : List OdAgg) (flows : List FlowAgg),
      (leftJoin ods flows).length = ods.length ∧
      (∀ o ∈ ods,
        (⟨o.key, o.od_count, lookupFlow flows o.key⟩ : CorrRow) ∈ leftJoin ods flows) ∧
      (∀ r ∈ leftJoin ods flows, r.flow = none → r ∉ validRows (leftJoin ods flows)) ∧
      matchedRecords (leftJoin ods flows) + missingFlowCount (leftJoin ods flows) = ods.length := by
  intro ods flows
  refine ⟨by simp [leftJoin], ?_, ?_, ?_⟩
  · intro o ho
    exact List.mem_map_of_mem _ ho
  · intro r _ hnone hval
    have := (List.mem_filter.mp hval).2
    simp [hnone] at this
  · have hle : missingFlowCount (leftJoin ods flows) ≤ (leftJoin ods flows).length :=
      List.length_filter_le _ _
    have : (leftJoin ods flows).length = ods.length := by simp [leftJoin]
    unfold matchedRecords
    omega

/-- C3 witness: the amended theorem applied to one trip-aggregate row
joined against an empty flow aggregate: the row is preserved with a null
flow, excluded from the valid subset, and counted as unmatched. -/
theorem c3_witness :
    (⟨("G1", 1, 8), 100, lookupFlow [] ("G1", 1, 8)⟩ : CorrRow) ∈
      leftJoin [⟨("G1", 1, 8), 100⟩] [] ∧
    matchedRecords (leftJoin [⟨("G1", 1, 8), 100⟩] []) +
      missingFlowCount (leftJoin [⟨("G1", 1, 8), 100⟩] []) = 1 := by
  have h := c3_main [⟨("G1", 1, 8), 100⟩] []
  exact ⟨h.2.1 ⟨("G1", 1, 8), 100⟩ (List.mem_singleton.mpr rfl), h.2.2.2⟩

/-- C7 counterexample: an absent (NULL) vehicle_type does not yield the
class other: the pandas apply of classify_vehicle_type
(detailed_correlation_analysis.py line 249) calls startswith on the
missing value and raises AttributeError, aborting instead of defaulting. -/
theorem c7_counterexample :
    applyClassifyVehicleType none = Except.error "AttributeError" ∧
    applyClassifyVehicleType none ≠ Except.ok VehicleClass.other := by
  exact ⟨rfl, by simp [applyClassifyVehicleType]⟩

/-- C7 amended: for every PRESENT vehicle_type string the classification
is a total function of the first character (k to passenger, h to truck,
t to trailer, anything else including the empty string to other) and
never fails; an ABSENT vehicle_type, however, raises an AttributeError
instead of falling back to other. -/
theorem c7_main :
    (∀ s : List Char, classify_vehicle_type s = classifyByFirstChar s) ∧
    (∀ s : List Char,
      applyClassifyVehicleType (some s) = Except.ok (classify_vehicle_type s)) ∧
    applyClassifyVehicleType none = Except.error "AttributeError" := by
  refine ⟨?_, fun s => rfl, rfl⟩
  intro s
  cases s with
  | nil => rfl
  | cons c cs =>
    simp only [classify_vehicle_type, classifyByFirstChar, pyStartsWith,
      List.isPrefixOf, List.isPrefixOf_nil_left, Bool.and_true]
    by_cases hk : c = 'k'
    · simp [hk]
    · by_cases hh : c = 'h'
      · simp [hk, hh]
      · by_cases ht : c = 't'
        · simp [hk, hh, ht]
        · simp [hk, hh, ht, Ne.symm hk, Ne.symm hh, Ne.symm ht]

/-- C9: the per-gantry functional classifier
(detailed_correlation_analysis.py lines 748-754) is a total function of
the gantry's mean od_ratio and mean transit_ratio returning one of
exactly three labels: origin_dominant iff mean od_ratio > 0.5, channel
iff not that and mean transit_ratio > 0.8, mixed otherwise; identical
input yields the identical label. -/
theorem c9_main :
    ∀ od_ratio transit_ratio : ℚ,
      (classify_function od_ratio transit_ratio = FunctionLabel.origin_dominant ∨
       classify_function od_ratio transit_ratio = FunctionLabel.channel ∨
       classify_function od_ratio transit_ratio = FunctionLabel.mixed) ∧
      (classify_function od_ratio transit_ratio = FunctionLabel.origin_dominant ↔
        od_ratio > 0.5) ∧
      (classify_function od_ratio transit_ratio = FunctionLabel.channel ↔
        (¬ od_ratio > 0.5 ∧ transit_ratio > 0.8)) ∧
      (classify_function od_ratio transit_ratio = FunctionLabel.mixed ↔
        (¬ od_ratio > 0.5 ∧ ¬ transit_ratio > 0.8)) ∧
      (∀ od2 t2 : ℚ, od_ratio = od2 → transit_ratio = t2 →
        classify_function od_ratio transit_ratio = classify_function od2 t2) := by
  intro od t
  unfold classify_function
  refine ⟨?_, ?_, ?_, ?_, ?_⟩
  · split_ifs <;> simp
  · split_ifs with h1 h2 <;> simp_all
  · split_ifs with h1 h2 <;> simp_all
  · split_ifs with h1 h2 <;> simp_all
  · intro od2 t2 h1 h2
    subst h1
    subst h2
    rfl

/-- C9 witness: the classifier applied at the concrete means
od_ratio = 0.6 and transit_ratio = 0.2, where it returns
origin_dominant. -/
theorem c9_witness :
    classify_function (3 / 5) (1 / 5) = FunctionLabel.origin_dominant ∧
    classify_function (3 / 5) (1 / 5) = classify_function (3 / 5) (1 / 5) := by
  have h := c9_main (3 / 5) (1 / 5)
  exact ⟨h.2.1.mpr (by norm_num), h.2.2.2.2 (3 / 5) (1 / 5) rfl rfl⟩

/-- C5: every row of the transit-flow frame
(detailed_correlation_analysis.py lines 705-712) satisfies
od_related_flow = origin_od_count + destination_od_count,
transit_flow = max(0, total_flow - od_related_flow), hence
transit_flow is nonnegative, transit_flow + od_related_flow recovers
total_flow whenever total_flow is at least od_related_flow, and
transit_flow is 0 otherwise; and each OD count defaults to 0 when its
(gantry, date, hour) bin is absent from the OD statistic. -/
theorem c5_main :
    ∀ (flowStats : List FlowStat) (originStats destStats : List OdStat),
      (∀ row ∈ calculate_transit_flow flowStats originStats destStats,
        row.od_related_flow = row.origin_od_count + row.destination_od_count ∧
        row.transit_flow = max 0 (row.total_flow - row.od_related_flow) ∧
        0 ≤ row.transit_flow ∧
        (row.od_related_flow ≤ row.total_flow →
          row.transit_flow + row.od_related_flow = row.total_flow) ∧
        (row.total_flow < row.od_related_flow → row.transit_flow = 0)) ∧
      (∀ f ∈ flowStats,
        ∃ row ∈ calculate_transit_flow flowStats originStats destStats,
          row.total_flow = f.total_flow ∧
          (lookupOd originStats f.gantry_code f.date f.hour = none →
            row.origin_od_count = 0) ∧
          (lookupOd destStats f.gantry_code f.date f.hour = none →
            row.destination_od_count = 0)) := by
  intro fs os ds
  constructor
  · intro row hrow
    obtain ⟨f, hf, rfl⟩ := List.mem_map.mp hrow
    refine ⟨rfl, rfl, le_max_left 0 _, ?_, ?_⟩
    · intro hle
      dsimp only at hle ⊢
      rw [max_eq_right (by linarith)]
      ring
    · intro hlt
      dsimp only at hlt ⊢
      rw [max_eq_left (by linarith)]
  · intro f hf
    refine ⟨_, List.mem_map_of_mem _ hf, rfl, ?_, ?_⟩
    · intro hn
      dsimp only
      rw [hn]
      rfl
    · intro hn
      dsimp only
      rw [hn]
      rfl

/-- C5 witness: the transit-flow computation applied to the single gantry
bin (G2, day 1, hour 9) with total_flow 200, origin count 10 and
destination count 5. -/
theorem c5_witness :
    ∃ row ∈ calculate_transit_flow [⟨"G2", 1, 9, 200⟩] [⟨"G2", 1, 9, 10⟩] [⟨"G2", 1, 9, 5⟩],
      row.total_flow = 200 ∧
      row.od_related_flow = row.origin_od_count + row.destination_od_count ∧
      0 ≤ row.transit_flow := by
  obtain ⟨row, hrow, htot, -, -⟩ :=
    (c5_main [⟨"G2", 1, 9, 200⟩] [⟨"G2", 1, 9, 10⟩] [⟨"G2", 1, 9, 5⟩]).2
      ⟨"G2", 1, 9, 200⟩ (List.mem_singleton.mpr rfl)
  have h := (c5_main [⟨"G2", 1, 9, 200⟩] [⟨"G2", 1, 9, 10⟩] [⟨"G2", 1, 9, 5⟩]).1 row hrow
  exact ⟨row, hrow, htot, h.1, h.2.2.1⟩

/-- C6 counterexample: a gantry bin whose total_flow is 0 yields
od_ratio and transit_ratio equal to IEEE NaN, not 0: lines 715-716 of
detailed_correlation_analysis.py divide without any subsequent fillna,
so 0/0 stays NaN, refuting that both ratios are defined as 0 when
total_flow is 0. -/
theorem c6_counterexample :
    (calculate_transit_flow [⟨"G0", 1, 0, 0⟩] [] []).map (fun r => r.od_ratio) = [PVal.nan] ∧
    (calculate_transit_flow [⟨"G0", 1, 0, 0⟩] [] []).map (fun r => r.transit_ratio) = [PVal.nan] ∧
    PVal.nan ≠ PVal.fin 0 := by
  refine ⟨?_, ?_, by simp⟩ <;>
    norm_num [calculate_transit_flow, lookupOd, pdiv, List.find?, max_def]

/-- C6 amended: transit_ratio and od_ratio are the raw float quotients
transit_flow / total_flow and od_related_flow / total_flow; when
total_flow is 0 they are IEEE specials (transit_ratio NaN, od_ratio NaN
or +inf according to od_related_flow), not 0; od_ratio is never clipped
to at most 1: with total_flow 50 and od_related_flow 60 the row has
transit_flow 0 and od_ratio 6/5. -/
theorem c6_main :
    (∀ (fs : List FlowStat) (os ds : List OdStat),
      ∀ row ∈ calculate_transit_flow fs os ds,
        (row.total_flow ≠ 0 →
          row.od_ratio = PVal.fin (row.od_related_flow / row.total_flow) ∧
          row.transit_ratio = PVal.fin (row.transit_flow / row.total_flow)) ∧
        (row.total_flow = 0 →
          (0 < row.od_related_flow → row.od_ratio = PVal.pinf) ∧
          (row.od_related_flow = 0 → row.od_ratio = PVal.nan) ∧
          row.transit_ratio = PVal.nan)) ∧
    (∃ row ∈ calculate_transit_flow [⟨"G3", 1, 9, 50⟩] [⟨"G3", 1, 9, 40⟩] [⟨"G3", 1, 9, 20⟩],
      row.total_flow = 50 ∧ row.od_related_flow = 60 ∧ row.transit_flow = 0 ∧
      row.od_ratio = PVal.fin (6 / 5)) := by
  constructor
  · intro fs os ds row hrow
    obtain ⟨f, hf, rfl⟩ := List.mem_map.mp hrow
    constructor
    · intro hne
      dsimp only at hne ⊢
      unfold pdiv
      rw [if_pos hne, if_pos hne]
      exact ⟨rfl, rfl⟩
    · intro hz
      dsimp only at hz ⊢
      refine ⟨?_, ?_, ?_⟩
      · intro hpos
        unfold pdiv
        rw [hz]
        rw [if_neg (by simp), if_pos hpos]
      · intro hzero
        unfold pdiv
        rw [hz, hzero]
        rw [if_neg (by simp), if_neg (by simp), if_neg (by simp)]
      · have htf : max 0 (f.total_flow -
            ((((lookupOd os f.gantry_code f.date f.hour).getD 0 : ℕ) : ℚ) +
             (((lookupOd ds f.gantry_code f.date f.hour).getD 0 : ℕ) : ℚ))) = 0 := by
          rw [hz, max_eq_left (sub_nonpos.mpr (by positivity))]
        rw [htf, hz]
        norm_num [pdiv]
  · refine ⟨⟨"G3", 1, 9, 50, 40, 20, 60, 0, PVal.fin (6 / 5), PVal.fin 0⟩, ?_, rfl, rfl, rfl, rfl⟩
    have : calculate_transit_flow [⟨"G3", 1, 9, 50⟩] [⟨"G3", 1, 9, 40⟩] [⟨"G3", 1, 9, 20⟩] =
        [⟨"G3", 1, 9, 50, 40, 20, 60, 0, PVal.fin (6 / 5), PVal.fin 0⟩] := by
      norm_num [calculate_transit_flow, lookupOd, pdiv, List.find?, max_def]
    rw [this]
    exact List.mem_singleton.mpr rfl

/-- Helper: the matched and unmatched row counts partition the joined
frame, so matched_records equals the length of the valid subset. -/
theorem matchedRecords_eq_valid_length (rows : List CorrRow) :
    matchedRecords rows = (validRows rows).length := by
  unfold matchedRecords missingFlowCount validRows
  have hsum : (rows.filter (fun r => r.flow.isSome)).length +
      (rows.filter (fun r => r.flow.isNone)).length = rows.length := by
    induction rows with
    | nil => rfl
    | cons r rest ih =>
      cases h : r.flow <;> simp [List.filter_cons, h] <;> omega
  omega

/-- C4 counterexample: in the joined frame with two matched rows, one of
them (G2, 80 trips) carrying flow_total 0, the mean od_flow_ratio
reported by _calculate_detailed_stats is +inf, not the 2/5 it would be
if the zero-flow row were excluded: the valid filter
(detailed_correlation_analysis.py line 363) tests only non-nullness, so
the zero denominator contributes an infinite ratio to the statistics,
while coverage still counts the row as matched. -/
theorem c4_counterexample :
    odFlowRatioMean (leftJoin [⟨("G1", 1, 8), 100⟩, ⟨("G2", 1, 8), 80⟩]
      [⟨("G1", 1, 8), 250, 150, 80, 20⟩, ⟨("G2", 1, 8), 0, 0, 0, 0⟩]) = PVal.pinf ∧
    odFlowRatioMeanSpecPositive (leftJoin [⟨("G1", 1, 8), 100⟩, ⟨("G2", 1, 8), 80⟩]
      [⟨("G1", 1, 8), 250, 150, 80, 20⟩, ⟨("G2", 1, 8), 0, 0, 0, 0⟩]) = PVal.fin (2 / 5) ∧
    PVal.pinf ≠ PVal.fin (2 / 5) ∧
    matchedRecords (leftJoin [⟨("G1", 1, 8), 100⟩, ⟨("G2", 1, 8), 80⟩]
      [⟨("G1", 1, 8), 250, 150, 80, 20⟩, ⟨("G2", 1, 8), 0, 0, 0, 0⟩]) = 2 := by
  have hjoin : leftJoin [⟨("G1", 1, 8), 100⟩, ⟨("G2", 1, 8), 80⟩]
      [⟨("G1", 1, 8), 250, 150, 80, 20⟩, ⟨("G2", 1, 8), 0, 0, 0, 0⟩] =
      [⟨("G1", 1, 8), 100, some ⟨("G1", 1, 8), 250, 150, 80, 20⟩⟩,
       ⟨("G2", 1, 8), 80, some ⟨("G2", 1, 8), 0, 0, 0, 0⟩⟩] := rfl
  refine ⟨?_, ?_, by simp, ?_⟩ <;>
    rw [hjoin] <;>
    norm_num [odFlowRatioMean, odFlowRatioMeanSpecPositive, odFlowRatioSeries,
      validRows, rowFlowTotal, pdiv, pmean, psum, padd, isNaN,
      matchedRecords, missingFlowCount, List.filter]

/-- C4 amended: a joined row with a present zero flow_total and positive
trip count does not fault and is counted as matched in coverage
accounting, but it is NOT excluded from the ratio statistics: it stays
in the valid subset and contributes an infinite od_flow_ratio to the
ratio series; only rows with a null flow_total are excluded. -/
theorem c4_main :
    ∀ (rows : List CorrRow) (r : CorrRow) (f : FlowAgg),
      r ∈ rows → r.flow = some f → f.flow_total = 0 →
      r ∈ validRows rows ∧
      pdiv r.od_count (rowFlowTotal r) ∈ odFlowRatioSeries rows ∧
      (0 < r.od_count → pdiv r.od_count (rowFlowTotal r) = PVal.pinf) ∧
      matchedRecords rows = (validRows rows).length := by
  intro rows r f hmem hf hz
  have hval : r ∈ validRows rows := by
    refine List.mem_filter.mpr ⟨hmem, ?_⟩
    simp [hf]
  refine ⟨hval, List.mem_map_of_mem _ hval, ?_, matchedRecords_eq_valid_length rows⟩
  intro hpos
  have hft : rowFlowTotal r = 0 := by
    unfold rowFlowTotal
    rw [hf]
    exact hz
  unfold pdiv
  rw [hft]
  rw [if_neg (by simp), if_pos (by exact_mod_cast hpos)]

/-- C4 witness: the amended theorem applied to the single joined row
(G2, day 1, hour 8) with 80 trips matched to flow_total 0. -/
theorem c4_witness :
    (⟨("G2", 1, 8), 80, some ⟨("G2", 1, 8), 0, 0, 0, 0⟩⟩ : CorrRow) ∈
      validRows (leftJoin [⟨("G2", 1, 8), 80⟩] [⟨("G2", 1, 8), 0, 0, 0, 0⟩]) ∧
    pdiv ((⟨("G2", 1, 8), 80, some ⟨("G2", 1, 8), 0, 0, 0, 0⟩⟩ : CorrRow).od_count)
      (rowFlowTotal ⟨("G2", 1, 8), 80, some ⟨("G2", 1, 8), 0, 0, 0, 0⟩⟩) = PVal.pinf := by
  have hmem : (⟨("G2", 1, 8), 80, some ⟨("G2", 1, 8), 0, 0, 0, 0⟩⟩ : CorrRow) ∈
      leftJoin [⟨("G2", 1, 8), 80⟩] [⟨("G2", 1, 8), 0, 0, 0, 0⟩] := by
    rw [show leftJoin [⟨("G2", 1, 8), 80⟩] [⟨("G2", 1, 8), 0, 0, 0, 0⟩] =
      [⟨("G2", 1, 8), 80, some ⟨("G2", 1, 8), 0, 0, 0, 0⟩⟩] from rfl]
    exact List.mem_singleton.mpr rfl
  have h := c4_main (leftJoin [⟨("G2", 1, 8), 80⟩] [⟨("G2", 1, 8), 0, 0, 0, 0⟩])
    ⟨("G2", 1, 8), 80, some ⟨("G2", 1, 8), 0, 0, 0, 0⟩⟩
    ⟨("G2", 1, 8), 0, 0, 0, 0⟩ hmem rfl rfl
  exact ⟨h.1, h.2.2.1 (by norm_num)⟩

/-- Helper: the deterministic sampler draws exactly min(n, len) rows. -/
theorem pandasSample_length {α : Type} (seed n : ℕ) (xs : List α) :
    (pandasSample seed n xs).length = min n xs.length := by
  induction n generalizing seed xs with
  | zero => simp [pandasSample]
  | succ n ih =>
    unfold pandasSample
    cases h : xs[seed % xs.length]? with
    | none =>
      have hlen : xs.length = 0 := by
        rcases Nat.eq_zero_or_pos xs.length with h0 | hpos
        · exact h0
        · have h1 := List.getElem?_eq_none_iff.mp h
          have h2 := Nat.mod_lt seed hpos
          omega
      simp [hlen]
    | some a =>
      have hlt : seed % xs.length < xs.length := by
        by_contra hge
        rw [List.getElem?_eq_none (by omega)] at h
        exact absurd h (by simp)
      simp only [List.length_cons, ih]
      rw [List.length_eraseIdx]
      rw [if_pos hlt]
      omega

/-- Helper: every row drawn by the deterministic sampler comes from the
input list. -/
theorem pandasSample_subset {α : Type} (seed n : ℕ) (xs : List α) :
    ∀ a ∈ pandasSample seed n xs, a ∈ xs := by
  induction n generalizing seed xs with
  | zero => simp [pandasSample]
  | succ n ih =>
    unfold pandasSample
    cases h : xs[seed % xs.length]? with
    | none => simp
    | some a =>
      intro b hb
      rcases List.mem_cons.mp hb with hba | hbtail
      · exact hba ▸ List.getElem?_mem h
      · exact List.eraseIdx_subset _ _ (ih _ _ b hbtail)

/-- C8: the median-case sampler (detailed_correlation_analysis.py lines
1522-1544) is deterministic: the identical matched CorrelationRecord set
yields the identical sampled case set; it keeps exactly the rows whose
od_flow_ratio lies between median*0.9 and median*1.1, and samples
min(10, number of such cases) of them, so at most 10, all drawn from the
case set. -/
theorem c8_main :
    ∀ rows rows2 : List CorrRow,
      (rows = rows2 → sampleMedianCases rows = sampleMedianCases rows2) ∧
      (sampleMedianCases rows).length = min 10 (medianRatioCases rows).length ∧
      (sampleMedianCases rows).length ≤ 10 ∧
      (∀ r ∈ sampleMedianCases rows, r ∈ medianRatioCases rows) ∧
      (∀ r ∈ medianRatioCases rows,
        r ∈ validRows rows ∧
        pleb (pmul (pandasMedian ((validRows rows).map rowOdFlowRatio)) (.fin (9 / 10)))
          (rowOdFlowRatio r) = true ∧
        pleb (rowOdFlowRatio r)
          (pmul (pandasMedian ((validRows rows).map rowOdFlowRatio)) (.fin (11 / 10))) = true) := by
  intro rows rows2
  refine ⟨fun h => by rw [h], ?_, ?_, ?_, ?_⟩
  · unfold sampleMedianCases
    rw [pandasSample_length]
    omega
  · unfold sampleMedianCases
    rw [pandasSample_length]
    omega
  · intro r hr
    exact pandasSample_subset _ _ _ r hr
  · intro r hr
    have hm := List.mem_filter.mp hr
    have hb := hm.2
    simp only [Bool.and_eq_true] at hb
    exact ⟨hm.1, hb.1, hb.2⟩

/-- C8 witness: the sampler applied to the one-row matched set
(S1, day 1, hour 8) with 80 trips and flow_total 100. -/
theorem c8_witness :
    sampleMedianCases [⟨("S1", 1, 8), 80, some ⟨("S1", 1, 8), 100, 60, 30, 10⟩⟩] =
      sampleMedianCases [⟨("S1", 1, 8), 80, some ⟨("S1", 1, 8), 100, 60, 30, 10⟩⟩] ∧
    (sampleMedianCases [⟨("S1", 1, 8), 80, some ⟨("S1", 1, 8), 100, 60, 30, 10⟩⟩]).length ≤ 10 := by
  have h := c8_main [⟨("S1", 1, 8), 80, some ⟨("S1", 1, 8), 100, 60, 30, 10⟩⟩]
    [⟨("S1", 1, 8), 80, some ⟨("S1", 1, 8), 100, 60, 30, 10⟩⟩]
  exact ⟨h.1 rfl, h.2.2.1⟩

/-- Helper: deduplication only returns rows of its input. -/
theorem dedupByPassId_subset : ∀ (l : List TripRow), ∀ a ∈ dedupByPassId l, a ∈ l := by
  intro l
  induction l using dedupByPassId.induct with
  | case1 => simp [dedupByPassId]
  | case2 r rest ih =>
    intro a ha
    rw [dedupByPassId] at ha
    rcases List.mem_cons.mp ha with h | h
    · exact h ▸ List.mem_cons_self r rest
    · exact List.mem_cons_of_mem r (List.mem_of_mem_filter (ih a h))

/-- Helper: after deduplication no two rows share a pass_id. -/
theorem dedupByPassId_pairwise (l : List TripRow) :
    (dedupByPassId l).Pairwise (fun a b => a.pass_id ≠ b.pass_id) := by
  induction l using dedupByPassId.induct with
  | case1 => simp [dedupByPassId]
  | case2 r rest ih =>
    rw [dedupByPassId]
    refine List.Pairwise.cons ?_ ih
    intro b hb
    have hbf := dedupByPassId_subset _ b hb
    have hne := (List.mem_filter.mp hbf).2
    simp only [bne_iff_ne, ne_eq] at hne
    exact fun h => hne h.symm

/-- Helper: deduplication keeps a representative of every input pass_id. -/
theorem dedupByPassId_covers : ∀ (l : List TripRow), ∀ p ∈ l,
    ∃ q ∈ dedupByPassId l, q.pass_id = p.pass_id := by
  intro l
  induction l using dedupByPassId.induct with
  | case1 => simp
  | case2 r rest ih =>
    intro p hp
    rw [dedupByPassId]
    rcases List.mem_cons.mp hp with h | h
    · exact ⟨r, List.mem_cons_self _ _, by rw [h]⟩
    · by_cases hpr : p.pass_id = r.pass_id
      · exact ⟨r, List.mem_cons_self _ _, hpr.symm⟩
      · have hpf : p ∈ rest.filter (fun x => x.pass_id != r.pass_id) :=
          List.mem_filter.mpr ⟨h, by simp [hpr]⟩
        obtain ⟨q, hq, hqe⟩ := ih p hpf
        exact ⟨q, List.mem_cons_of_mem _ hq, hqe⟩

/-- C10: the loaded trip dataset (detailed_correlation_analysis.py lines
180-189) is the union of the trips whose start_time lies in the window
and the trips whose end_time lies in the window, deduplicated on
pass_id: it holds at most one record per pass_id, every record comes
from the source table with its start or end in the window, and every
source trip with start or end in the window is represented by exactly
its pass_id. -/
theorem c10_main :
    ∀ (table : List TripRow) (s e : ℕ),
      (load_od_data table s e).Pairwise (fun a b => a.pass_id ≠ b.pass_id) ∧
      (∀ r ∈ load_od_data table s e,
        r ∈ table ∧ (inWindow s e r.start_time = true ∨ inWindow s e r.end_time = true)) ∧
      (∀ r ∈ table,
        (inWindow s e r.start_time = true ∨ inWindow s e r.end_time = true) →
        ∃ q ∈ load_od_data table s e, q.pass_id = r.pass_id) := by
  intro table s e
  refine ⟨dedupByPassId_pairwise _, ?_, ?_⟩
  · intro r hr
    have hsrc := dedupByPassId_subset _ r hr
    rcases List.mem_append.mp hsrc with h | h
    · have hm := List.mem_filter.mp h
      exact ⟨hm.1, Or.inl hm.2⟩
    · have hm := List.mem_filter.mp h
      exact ⟨hm.1, Or.inr hm.2⟩
  · intro r hr hw
    apply dedupByPassId_covers
    rcases hw with h | h
    · exact List.mem_append_left _ (List.mem_filter.mpr ⟨hr, h⟩)
    · exact List.mem_append_right _ (List.mem_filter.mpr ⟨hr, h⟩)

/-- C10 witness: loading the one-trip table with window [0, 10): the trip
starts at 5 (inside) and ends at 20 (outside) and is represented once. -/
theorem c10_witness :
    ∃ q ∈ load_od_data [⟨"P1", 5, 20⟩] 0 10, q.pass_id = "P1" := by
  obtain ⟨q, hq, he⟩ := (c10_main [⟨"P1", 5, 20⟩] 0 10).2.2 ⟨"P1", 5, 20⟩
    (List.mem_singleton.mpr rfl) (Or.inl (by decide))
  exact ⟨q, hq, he⟩

/-- C6 witness: the amended theorem applied to the Scenario D bin
(G3, day 1, hour 9) with total_flow 50, origin count 40 and destination
count 20, whose od_ratio is the raw quotient 60/50. -/
theorem c6_witness :
    ∃ row ∈ calculate_transit_flow [⟨"G3", 1, 9, 50⟩] [⟨"G3", 1, 9, 40⟩] [⟨"G3", 1, 9, 20⟩],
      row.od_ratio = PVal.fin (row.od_related_flow / row.total_flow) := by
  obtain ⟨row, hrow, htot, -, -, -⟩ := c6_main.2
  exact ⟨row, hrow, ((c6_main.1 _ _ _ row hrow).1 (by rw [htot]; norm_num)).1⟩
